import Mathlib

/-!
Shallow embedding of the terrain-to-solid pipeline of
`dem_to_3d_print_highram_v65.py`, restricted to the parts needed by the
verified properties: the road-label placer, the CityJSON vertical aligner,
the flat-bottom CSG cut, the alignment-notch cutouts, the mounting holes,
and the per-site boolean-solver strategies.  Machine floats are embedded as
exact rationals; trigonometric values at the quarter-turn angles 0, pi/2,
pi, -pi/2 (the only angles the cutout code rotates by) are embedded by
their exact values.
-/

namespace DemPipeline

/-! ## Road labels: suffix abbreviation (from add_road_labels, lines 2602-2632) -/

/-- The abbreviation table of add_road_labels, in source (insertion) order. -/
def abbreviations : List (String × String) :=
  [(" Street", " St"), (" Avenue", " Ave"), (" Boulevard", " Blvd"),
   (" Drive", " Dr"), (" Road", " Rd"), (" Lane", " Ln"),
   (" Court", " Ct"), (" Place", " Pl"), (" Circle", " Cir"),
   (" Trail", " Tr"), (" Way", " Wy"), (" Terrace", " Ter"),
   (" Highway", " Hwy"), (" Parkway", " Pkwy"), (" Heights", " Hts"),
   (" Point", " Pt"), (" Square", " Sq"), (" North", " N"),
   (" South", " S"), (" East", " E"), (" West", " W")]

/-- The endswith test of the Python loop, on the character data of the two
strings. -/
def ends_with (name full : String) : Bool :=
  full.data.isSuffixOf name.data

/-- Python name[:-len(full)] + abbr: drop the matched suffix characters and
append the abbreviation. -/
def replace_suffix (name full abbr : String) : String :=
  ⟨name.data.take (name.data.length - full.data.length) ++ abbr.data⟩

/-- abbreviate_name: the first table entry whose full form is a suffix of the
name has that suffix replaced by its abbreviation; the loop breaks after the
first match, and a name matching no entry is returned unchanged. -/
def abbreviate_name (name : String) : String :=
  match abbreviations.find? (fun fa => ends_with name fa.1) with
  | some fa => replace_suffix name fa.1 fa.2
  | none => name

/-! ## Road labels: candidates and the overlap filter (lines 2634-2650) -/

/-- One entry of the labeled_roads list: (name, mid_x, mid_y, angle, length). -/
structure LabelCandidate where
  name : String
  x : ℚ
  y : ℚ
  angle : ℚ
  length : ℚ
deriving DecidableEq, Repr

/-- Squared anchor distance.  The source compares
sqrt(dx^2+dy^2) < min_distance; both sides being nonnegative this is
equivalent to dx^2+dy^2 < min_distance^2, which is how the comparison is
embedded to stay inside the rationals. -/
def dist_sq (a b : LabelCandidate) : ℚ :=
  (a.x - b.x) * (a.x - b.x) + (a.y - b.y) * (a.y - b.y)

/-- The too_close test of the filtering loop: the candidate is within the
minimum separation of some already-accepted label. -/
def too_close (minDist : ℚ) (c : LabelCandidate) (accepted : List LabelCandidate) : Bool :=
  accepted.any (fun o => dist_sq c o < minDist * minDist)

/-- The greedy overlap filter: walk labeled_roads in discovery order,
appending a candidate to filtered_roads exactly when it is not too close to
any previously accepted one. -/
def filter_labels (minDist : ℚ) (labeled_roads : List LabelCandidate) : List LabelCandidate :=
  labeled_roads.foldl
    (fun filtered_roads c =>
      if too_close minDist c filtered_roads then filtered_roads
      else filtered_roads ++ [c])
    []

/-- The text generation loop (lines 2666-2676) sets each label body to the
abbreviated name of its accepted candidate. -/
def label_texts (filtered_roads : List LabelCandidate) : List String :=
  filtered_roads.map (fun c => abbreviate_name c.name)

/-! ## Road labels: orientation normalization (lines 2561-2564 and 2680-2685) -/

/-- label_angle normalization: flip by a half turn when the raw tangent
angle falls outside [-pi/2, pi/2].  The angle unit is abstracted by the
parameter pi_v standing for the value of math.pi. -/
def normalize_label_angle (pi_v a : ℚ) : ℚ :=
  if a > pi_v / 2 ∨ a < -(pi_v / 2) then a + pi_v else a

/-! ## Boolean-solver strategy at the four subtraction sites (C1) -/

/-- The two Blender boolean solvers used by the script. -/
inductive Solver where
  | EXACT
  | FAST
deriving DecidableEq, Repr

/-- Outcome of one cutter subtraction site, as a function of which solver
applications succeed: the solvers attempted in order, whether the modifier
was applied (target modified), whether an exception escaped the site (fatal
to the run), and whether the failure was recorded in a failure counter. -/
structure BooleanOutcome where
  attempts : List Solver
  applied : Bool
  raised : Bool
  counted : Bool
deriving DecidableEq, Repr

/-- cut_flat_bottom, lines 796-809: EXACT inside a bare try; the FAST retry
in the except branch is NOT guarded, so a second failure escapes. -/
def cut_flat_bottom_boolean (exact_ok fast_ok : Bool) : BooleanOutcome :=
  if exact_ok then ⟨[Solver.EXACT], true, false, false⟩
  else if fast_ok then ⟨[Solver.EXACT, Solver.FAST], true, false, false⟩
  else ⟨[Solver.EXACT, Solver.FAST], false, true, false⟩

/-- add_text_before_scale, lines 2832-2841: a single attempt with the FAST
solver; a failure is printed and swallowed; no EXACT attempt, no retry, no
counter.  The first argument is unused because no EXACT solve exists here. -/
def add_text_boolean (_exact_ok fast_ok : Bool) : BooleanOutcome :=
  if fast_ok then ⟨[Solver.FAST], true, false, false⟩
  else ⟨[Solver.FAST], false, false, false⟩

/-- add_alignment_cutouts, lines 3042-3064: EXACT in a try, FAST retry in a
nested try; a double failure increments failed_cuts and the loop continues. -/
def alignment_cutout_boolean (exact_ok fast_ok : Bool) : BooleanOutcome :=
  if exact_ok then ⟨[Solver.EXACT], true, false, false⟩
  else if fast_ok then ⟨[Solver.EXACT, Solver.FAST], true, false, false⟩
  else ⟨[Solver.EXACT, Solver.FAST], false, false, true⟩

/-- add_mounting_holes, lines 3208-3225: EXACT in a try, FAST retry in a
nested try; a double failure is printed only (no counter) and the function
continues. -/
def mounting_holes_boolean (exact_ok fast_ok : Bool) : BooleanOutcome :=
  if exact_ok then ⟨[Solver.EXACT], true, false, false⟩
  else if fast_ok then ⟨[Solver.EXACT, Solver.FAST], true, false, false⟩
  else ⟨[Solver.EXACT, Solver.FAST], false, false, false⟩

/-- The uniform policy a site would follow under the spec sentence of C1:
EXACT attempted first, one FAST retry on failure, and a double failure
counted, non-fatal, leaving the target unmodified. -/
def claim_c1_site (site : Bool → Bool → BooleanOutcome) : Prop :=
  ∀ exact_ok fast_ok : Bool,
    (site exact_ok fast_ok).attempts.head? = some Solver.EXACT ∧
    (exact_ok = false → (site exact_ok fast_ok).attempts = [Solver.EXACT, Solver.FAST]) ∧
    (exact_ok = false → fast_ok = false →
      (site exact_ok fast_ok).counted = true ∧
      (site exact_ok fast_ok).raised = false ∧
      (site exact_ok fast_ok).applied = false)

/-- C1 as stated: the uniform policy at every subtraction site of the file. -/
def claim_c1 : Prop :=
  claim_c1_site cut_flat_bottom_boolean ∧
  claim_c1_site add_text_boolean ∧
  claim_c1_site alignment_cutout_boolean ∧
  claim_c1_site mounting_holes_boolean

/-! ## Cutter lifecycle traces (C2, C10) -/

/-- Observable cutter-lifecycle events of a subtraction loop. -/
inductive CutEvent where
  | create (name : String)
  | subtractAttempt (name : String)
  | discard (name : String)
deriving DecidableEq, Repr

/-- Count the boolean-subtraction attempts in a trace. -/
def subtract_count (trace : List CutEvent) : Nat :=
  trace.countP (fun e => match e with | CutEvent.subtractAttempt _ => true | _ => false)

/-! ## Alignment cutouts (add_alignment_cutouts, lines 2921-3071) -/

/-- One entry of cutout_configs: (center_x, center_y, rotation, name), with
the rotation carried as its exact cosine and sine (the code only rotates by
0, pi/2, pi and -pi/2). -/
structure CutoutConfig where
  cx : ℚ
  cy : ℚ
  cosr : ℚ
  sinr : ℚ
  name : String
deriving DecidableEq, Repr

/-- edge_offset = half_size * (2 * edge_inset_pct - 1), line 2963. -/
def edge_offset (half_size edge_inset_pct : ℚ) : ℚ :=
  half_size * (2 * edge_inset_pct - 1)

/-- cutout_configs, lines 2972-2985: two cutters per tile edge.  Rotations:
South pi, North 0, West pi/2, East -pi/2, embedded as (cos, sin) pairs. -/
def cutout_configs (min_x max_x min_y max_y inset_pct eo : ℚ) : List CutoutConfig :=
  [⟨min_x + (max_x - min_x) * inset_pct, min_y + eo, -1, 0, "South_W"⟩,
   ⟨max_x - (max_x - min_x) * inset_pct, min_y + eo, -1, 0, "South_E"⟩,
   ⟨min_x + (max_x - min_x) * inset_pct, max_y - eo, 1, 0, "North_W"⟩,
   ⟨max_x - (max_x - min_x) * inset_pct, max_y - eo, 1, 0, "North_E"⟩,
   ⟨min_x + eo, min_y + (max_y - min_y) * inset_pct, 0, 1, "West_S"⟩,
   ⟨min_x + eo, max_y - (max_y - min_y) * inset_pct, 0, 1, "West_N"⟩,
   ⟨max_x - eo, min_y + (max_y - min_y) * inset_pct, 0, -1, "East_S"⟩,
   ⟨max_x - eo, max_y - (max_y - min_y) * inset_pct, 0, -1, "East_N"⟩]

/-- The local triangle of lines 2996-3000: apex at (0, +half_size), base
corners at y = -half_size. -/
def local_pts (half_size : ℚ) : List (ℚ × ℚ) :=
  [(0, half_size), (-half_size, -half_size), (half_size, -half_size)]

/-- World transform of a local 2D point, lines 3004-3011. -/
def world_pt (c : CutoutConfig) (p : ℚ × ℚ) : ℚ × ℚ :=
  (p.1 * c.cosr - p.2 * c.sinr + c.cx, p.1 * c.sinr + p.2 * c.cosr + c.cy)

/-- The prism vertex list of one cutout: the three transformed corners at
z_bottom then the three at z_top. -/
def prism_verts (c : CutoutConfig) (half_size z_bottom z_top : ℚ) : List (ℚ × ℚ × ℚ) :=
  ((local_pts half_size).map (fun p => ((world_pt c p).1, (world_pt c p).2, z_bottom))) ++
  ((local_pts half_size).map (fun p => ((world_pt c p).1, (world_pt c p).2, z_top)))

/-- The per-cutout loop of lines 2991-3067 as an event trace: each config
creates its cutter, then (when the DEM object is still present) performs its
one boolean subtraction, then discards the cutter, before the next config is
touched. -/
def cutout_loop_trace (configs : List CutoutConfig) (dem_present : String → Bool) : List CutEvent :=
  (configs.map (fun c =>
    if dem_present c.name then
      [CutEvent.create c.name, CutEvent.subtractAttempt c.name, CutEvent.discard c.name]
    else
      [CutEvent.create c.name, CutEvent.discard c.name])).flatten

/-- An outward-pointing unit direction together with a point on a tile edge,
for measuring signed distance out of the tile across that edge. -/
structure EdgeFrame where
  outx : ℚ
  outy : ℚ
  px : ℚ
  py : ℚ
deriving DecidableEq, Repr

/-- Signed distance of a 2D point from the edge line, positive outward. -/
def out_dist (f : EdgeFrame) (p : ℚ × ℚ) : ℚ :=
  (p.1 - f.px) * f.outx + (p.2 - f.py) * f.outy

/-- The tile edge each entry of cutout_configs belongs to, in the same
order: South, South, North, North, West, West, East, East. -/
def cutout_frames (min_x max_x min_y max_y : ℚ) : List EdgeFrame :=
  [⟨0, -1, min_x, min_y⟩, ⟨0, -1, min_x, min_y⟩,
   ⟨0, 1, min_x, max_y⟩, ⟨0, 1, min_x, max_y⟩,
   ⟨-1, 0, min_x, min_y⟩, ⟨-1, 0, min_x, min_y⟩,
   ⟨1, 0, max_x, min_y⟩, ⟨1, 0, max_x, min_y⟩]

/-! ## Mounting holes (add_mounting_holes, lines 3073-3228) -/

/-- segments = 16, line 3128. -/
def segments : Nat := 16

/-- The 4 corner positions of line 3119-3124. -/
def hole_positions (min_x max_x min_y max_y inset_x inset_y : ℚ) : List (ℚ × ℚ × String) :=
  [(min_x + inset_x, min_y + inset_y, "SW"),
   (max_x - inset_x, min_y + inset_y, "SE"),
   (min_x + inset_x, max_y - inset_y, "NW"),
   (max_x - inset_x, max_y - inset_y, "NE")]

/-- Vertices of one cylinder, lines 3136-3155: the bottom circle, the top
circle, then the bottom and top cap centers.  The cosine and sine of the
angles 2*pi*i/segments are abstracted by the samplers cosf and sinf. -/
def cylinder_verts (cosf sinf : Nat → ℚ) (cx cy radius z_bottom z_top : ℚ) :
    List (ℚ × ℚ × ℚ) :=
  ((List.range segments).map (fun i => (cx + radius * cosf i, cy + radius * sinf i, z_bottom))) ++
  ((List.range segments).map (fun i => (cx + radius * cosf i, cy + radius * sinf i, z_top))) ++
  [(cx, cy, z_bottom), (cx, cy, z_top)]

/-- Faces of one cylinder with vertex offset v, lines 3161-3183: segments
side quads, then segments bottom-cap triangles, then segments top-cap
triangles. -/
def cylinder_faces (v : Nat) : List (List Nat) :=
  ((List.range segments).map (fun i =>
    [v + i, v + (i + 1) % segments, v + segments + (i + 1) % segments, v + segments + i])) ++
  ((List.range segments).map (fun i =>
    [v + 2 * segments, v + (i + 1) % segments, v + i])) ++
  ((List.range segments).map (fun i =>
    [v + 2 * segments + 1, v + segments + i, v + segments + (i + 1) % segments]))

/-- all_verts accumulated over the four holes (the loop of lines 3134-3187):
the per-hole vertex blocks concatenated in corner order. -/
def all_mounting_verts (cosf sinf : Nat → ℚ) (positions : List (ℚ × ℚ × String))
    (radius z_bottom z_top : ℚ) : List (ℚ × ℚ × ℚ) :=
  (positions.map (fun p => cylinder_verts cosf sinf p.1 p.2.1 radius z_bottom z_top)).flatten

/-- all_faces accumulated over the holes: hole k uses vertex offset
k * (2 * segments + 2), line 3185. -/
def all_mounting_faces (holes : Nat) : List (List Nat) :=
  ((List.range holes).map (fun k => cylinder_faces (k * (2 * segments + 2)))).flatten

/-- add_mounting_holes as an event trace, lines 3190-3227: one combined
cutter mesh is created, then (when the DEM object is still present) a single
boolean subtraction is attempted, then the cutter is discarded. -/
def mounting_holes_trace (dem_present : Bool) : List CutEvent :=
  if dem_present then
    [CutEvent.create "Mounting_Holes_Combined",
     CutEvent.subtractAttempt "Mounting_Holes_Combined",
     CutEvent.discard "Mounting_Holes_Combined"]
  else
    [CutEvent.create "Mounting_Holes_Combined",
     CutEvent.discard "Mounting_Holes_Combined"]

/-! ## Flat-bottom cut (cut_flat_bottom, lines 752-812) -/

/-- World bounding box of the terrain object. -/
structure BBox where
  min_x : ℚ
  max_x : ℚ
  min_y : ℚ
  max_y : ℚ
  min_z : ℚ
  max_z : ℚ
deriving DecidableEq, Repr

/-- model_width = max(max_x - min_x, max_y - min_y), line 766. -/
def model_width (b : BBox) : ℚ := max (b.max_x - b.min_x) (b.max_y - b.min_y)

/-- model_height = max_z - min_z, line 767. -/
def model_height (b : BBox) : ℚ := b.max_z - b.min_z

/-- cutter_xy_size = model_width * 3, line 770. -/
def cutter_xy_size (b : BBox) : ℚ := model_width b * 3

/-- cutter_z_size = max(model_height * 10, 50000), line 773. -/
def cutter_z_size (b : BBox) : ℚ := max (model_height b * 10) 50000

/-- cutter_z = cut_elevation - cutter_z_size / 2, line 776. -/
def cutter_z (b : BBox) (cut_elevation : ℚ) : ℚ := cut_elevation - cutter_z_size b / 2

/-- An axis-aligned box cutter given by its center and edge sizes (the unit
cube of line 783 placed at its location and scaled, lines 785-790). -/
structure Box3 where
  cx : ℚ
  cy : ℚ
  cz : ℚ
  sx : ℚ
  sy : ℚ
  sz : ℚ
deriving DecidableEq, Repr

/-- The bottom cutter built by cut_flat_bottom. -/
def bottom_cutter (b : BBox) (cut_elevation : ℚ) : Box3 :=
  ⟨(b.min_x + b.max_x) / 2, (b.min_y + b.max_y) / 2, cutter_z b cut_elevation,
   cutter_xy_size b, cutter_xy_size b, cutter_z_size b⟩

/-- A 3D point. -/
abbrev Point3 : Type := ℚ × ℚ × ℚ

/-- The closed point set of a box cutter. -/
def box_closed (bx : Box3) : Set Point3 :=
  {p | |p.1 - bx.cx| ≤ bx.sx / 2 ∧ |p.2.1 - bx.cy| ≤ bx.sy / 2 ∧ |p.2.2 - bx.cz| ≤ bx.sz / 2}

/-- The open interior of a box cutter. -/
def box_open (bx : Box3) : Set Point3 :=
  {p | |p.1 - bx.cx| < bx.sx / 2 ∧ |p.2.1 - bx.cy| < bx.sy / 2 ∧ |p.2.2 - bx.cz| < bx.sz / 2}

/-- The EXACT boolean difference of a solid and a box cutter, modeled as the
regularized set difference: the cutter removes its interior, so geometry on
the cutter boundary (the cut face) remains in the result. -/
def csg_difference (target : Set Point3) (cutter : Box3) : Set Point3 :=
  target \ box_open cutter

/-- Membership of a point in the world bounding box used to size the cutter. -/
def in_bbox (b : BBox) (p : Point3) : Prop :=
  b.min_x ≤ p.1 ∧ p.1 ≤ b.max_x ∧ b.min_y ≤ p.2.1 ∧ p.2.1 ≤ b.max_y ∧
  b.min_z ≤ p.2.2 ∧ p.2.2 ≤ b.max_z

/-! ## CityJSON vertical alignment (add_buildings_cityjson, lines 1440-1497) -/

/-- A building vertex. -/
structure BVert where
  x : ℚ
  y : ℚ
  z : ℚ
deriving DecidableEq, Repr

/-- sorted(enumerate(vertices), key z), line 1455, modeled by a stable
insertion sort on the z field. -/
def sorted_by_z (verts : List BVert) : List BVert :=
  verts.insertionSort (fun a b => a.z ≤ b.z)

/-- sample_count = max(10, len(sorted_verts) // 10), line 1456. -/
def sample_count (n : Nat) : Nat := max 10 (n / 10)

/-- ground_floor_verts = the sample_count lowest-Z vertices, line 1457. -/
def ground_floor_verts (verts : List BVert) : List BVert :=
  (sorted_by_z verts).take (sample_count verts.length)

/-- The z_differences loop of lines 1459-1472: for each ground-floor sample
whose downward ray hits the terrain (ray_hit returns the hit z), record
terrain_z_at_building - building_z. -/
def z_differences (ray_hit : ℚ → ℚ → Option ℚ) (verts : List BVert) : List ℚ :=
  (ground_floor_verts verts).filterMap
    (fun v => (ray_hit v.x v.y).map (fun tz => tz - v.z))

/-- z_adjustment: sort the differences and take the element at index
len // 2 (the upper median for even lengths), lines 1476-1478. -/
def z_adjustment (diffs : List ℚ) : ℚ :=
  (diffs.insertionSort (fun a b => a ≤ b)).getD (diffs.length / 2) 0

/-- The alignment step, lines 1474-1497: when z_differences is nonempty and
the median adjustment exceeds the 0.5 deadband in magnitude, every vertex z
is shifted by the adjustment; otherwise the vertices are left unmodified
(the empty case prints the no-ray-hits warning). -/
def align_buildings (ray_hit : ℚ → ℚ → Option ℚ) (verts : List BVert) : List BVert :=
  let diffs := z_differences ray_hit verts
  if diffs = [] then verts
  else
    let adj := z_adjustment diffs
    if 1 / 2 < |adj| then verts.map (fun v => ⟨v.x, v.y, v.z + adj⟩) else verts

/-- Modelled from the spec words of C3 only (for comparison with the code):
a sampler taking exactly the lowest-Z decile, n // 10 vertices. -/
def spec_decile_ground_floor (verts : List BVert) : List BVert :=
  (sorted_by_z verts).take (verts.length / 10)

/-- Modelled from the spec words of C3 only: the alignment computed over the
exact lowest-Z decile instead of the code's max(10, n // 10) lowest. -/
def spec_align_buildings (ray_hit : ℚ → ℚ → Option ℚ) (verts : List BVert) : List BVert :=
  let diffs := (spec_decile_ground_floor verts).filterMap
    (fun v => (ray_hit v.x v.y).map (fun tz => tz - v.z))
  if diffs = [] then verts
  else
    let adj := z_adjustment diffs
    if 1 / 2 < |adj| then verts.map (fun v => ⟨v.x, v.y, v.z + adj⟩) else verts

/-- A 10-vertex building mesh exhibiting the sampling behavior: every
vertex at ground height z = 0, x coordinates 0 through 9. -/
def demo_verts : List BVert :=
  [⟨0, 0, 0⟩, ⟨1, 0, 0⟩, ⟨2, 0, 0⟩, ⟨3, 0, 0⟩, ⟨4, 0, 0⟩,
   ⟨5, 0, 0⟩, ⟨6, 0, 0⟩, ⟨7, 0, 0⟩, ⟨8, 0, 0⟩, ⟨9, 0, 0⟩]

/-- A terrain ray-cast over demo_verts: the terrain sits at z = 0 below the
vertex at x = 0 and at z = 100 below all the others. -/
def demo_ray : ℚ → ℚ → Option ℚ := fun x _ => if x < 1 then some 0 else some 100

/-! # Theorems -/

/-- C9: every accepted label candidate has common suffix abbreviation
applied to its name before its text volume is generated, each rule replacing
a matching name suffix; in particular a road named Main Street yields a
label with text Main St. -/
theorem label_abbreviation_applied :
    (∀ filtered_roads : List LabelCandidate,
      label_texts filtered_roads = filtered_roads.map (fun c => abbreviate_name c.name)) ∧
    abbreviate_name "Main Street" = "Main St" :=
  ⟨fun _ => rfl, by decide⟩

/-- C5: label candidates are accepted greedily in discovery order, a new
candidate being rejected exactly when its anchor lies within the minimum
separation of some previously accepted anchor; for two roads whose anchors
are 2 units apart under minimum separation 10, only the first-discovered
label is retained. -/
theorem add_road_labels_overlap_filter :
    (∀ (minDist : ℚ) (c : LabelCandidate) (accepted : List LabelCandidate),
      too_close minDist c accepted = true ↔ ∃ o ∈ accepted, dist_sq c o < minDist * minDist) ∧
    (∀ (minDist : ℚ) (l : List LabelCandidate) (c : LabelCandidate),
      filter_labels minDist (l ++ [c]) =
        if too_close minDist c (filter_labels minDist l) then filter_labels minDist l
        else filter_labels minDist l ++ [c]) ∧
    filter_labels 10 [⟨"First Rd", 0, 0, 0, 0⟩, ⟨"Second Rd", 2, 0, 0, 0⟩] =
      [⟨"First Rd", 0, 0, 0, 0⟩] := by
  refine ⟨?_, ?_, ?_⟩
  · intro minDist c accepted
    simp [too_close, List.any_eq_true]
  · intro minDist l c
    simp [filter_labels, List.foldl_append]
  · have h1 : too_close 10 ⟨"First Rd", 0, 0, 0, 0⟩ [] = false := rfl
    have h2 : too_close 10 ⟨"Second Rd", 2, 0, 0, 0⟩ [⟨"First Rd", 0, 0, 0, 0⟩] = true := by
      simp [too_close, dist_sq]
      norm_num
    simp [filter_labels, h1, h2]

/-- C6: for every road-label anchor the applied orientation equals the raw
tangent angle when that angle lies in [-pi/2, pi/2] and the raw angle plus a
half turn otherwise, and the result, reduced by a full turn when needed,
always lies in [-pi/2, pi/2] (the label never reads upside-down).  pi_v
stands for the value of math.pi and a for the atan2 result, which lies in
[-pi_v, pi_v]. -/
theorem add_road_labels_angle_normalized (pi_v a : ℚ)
    (hpi : 0 < pi_v) (hlo : -pi_v ≤ a) (hhi : a ≤ pi_v) :
    ((-(pi_v / 2) ≤ a ∧ a ≤ pi_v / 2) → normalize_label_angle pi_v a = a) ∧
    (¬(-(pi_v / 2) ≤ a ∧ a ≤ pi_v / 2) → normalize_label_angle pi_v a = a + pi_v) ∧
    ((-(pi_v / 2) ≤ normalize_label_angle pi_v a ∧ normalize_label_angle pi_v a ≤ pi_v / 2) ∨
     (-(pi_v / 2) ≤ normalize_label_angle pi_v a - 2 * pi_v ∧
      normalize_label_angle pi_v a - 2 * pi_v ≤ pi_v / 2)) := by
  unfold normalize_label_angle
  by_cases h : a > pi_v / 2 ∨ a < -(pi_v / 2)
  · rw [if_pos h]
    refine ⟨fun hc => absurd h (by push_neg; exact ⟨hc.2, hc.1⟩) , fun _ => rfl, ?_⟩
    rcases h with h | h
    · right
      constructor <;> linarith
    · left
      constructor <;> linarith
  · rw [if_neg h]
    push_neg at h
    exact ⟨fun _ => rfl, fun hc => absurd ⟨h.2, h.1⟩ hc, Or.inl ⟨h.2, h.1⟩⟩

/-- Witness for the angle-normalization theorem at pi_v = 180, a = 135. -/
theorem add_road_labels_angle_normalized_witness :
    (0 : ℚ) < 180 ∧ -(180 : ℚ) ≤ 135 ∧ (135 : ℚ) ≤ 180 ∧
    (((-(180 / 2 : ℚ) ≤ 135 ∧ (135 : ℚ) ≤ 180 / 2) → normalize_label_angle 180 135 = 135) ∧
     (¬(-(180 / 2 : ℚ) ≤ 135 ∧ (135 : ℚ) ≤ 180 / 2) → normalize_label_angle 180 135 = 135 + 180) ∧
     ((-(180 / 2 : ℚ) ≤ normalize_label_angle 180 135 ∧
       normalize_label_angle 180 135 ≤ 180 / 2) ∨
      (-(180 / 2 : ℚ) ≤ normalize_label_angle 180 135 - 2 * 180 ∧
       normalize_label_angle 180 135 - 2 * 180 ≤ 180 / 2))) :=
  ⟨by decide, by decide, by decide,
   add_road_labels_angle_normalized 180 135 (by decide) (by decide) (by decide)⟩

/-- C1 counterexample: the uniform try-EXACT-then-retry-FAST,
count-and-continue policy does not hold at every subtraction site; at the
text-deboss site the only solver ever attempted is FAST, and at the
flat-bottom site a double failure raises out of the function. -/
theorem claim_c1_false : ¬claim_c1 := by
  intro h
  exact absurd (h.2.1 false false).1 (by decide)

/-- C1 amended: the alignment-cutout and mounting-hole subtractions attempt
EXACT first with one FAST retry and absorb a double failure (counted for the
cutouts, logged only for the holes) leaving the target unmodified; the
flat-bottom cut attempts EXACT with one FAST retry but its double failure
raises (fatal); the text-deboss subtraction attempts only FAST, once, and
its failure is absorbed without a counter. -/
theorem csg_solver_strategy_per_site :
    (∀ e f, (alignment_cutout_boolean e f).attempts.head? = some Solver.EXACT) ∧
    (∀ f, (alignment_cutout_boolean false f).attempts = [Solver.EXACT, Solver.FAST]) ∧
    alignment_cutout_boolean false false =
      ⟨[Solver.EXACT, Solver.FAST], false, false, true⟩ ∧
    (∀ e f, (mounting_holes_boolean e f).attempts.head? = some Solver.EXACT) ∧
    (∀ f, (mounting_holes_boolean false f).attempts = [Solver.EXACT, Solver.FAST]) ∧
    mounting_holes_boolean false false =
      ⟨[Solver.EXACT, Solver.FAST], false, false, false⟩ ∧
    (∀ e f, (cut_flat_bottom_boolean e f).attempts.head? = some Solver.EXACT) ∧
    cut_flat_bottom_boolean false false =
      ⟨[Solver.EXACT, Solver.FAST], false, true, false⟩ ∧
    (∀ e f, (add_text_boolean e f).attempts = [Solver.FAST]) ∧
    add_text_boolean false false = ⟨[Solver.FAST], false, false, false⟩ := by
  decide

/-- C2: when alignment cutouts are enabled exactly eight triangular-prism
cutters are built, two per tile edge, and each is created, subtracted in its
own boolean operation and discarded before the next is created, yielding
exactly 8 independent subtraction attempts in sequence (never batched). -/
theorem add_alignment_cutouts_sequential
    (min_x max_x min_y max_y inset_pct eo : ℚ) (dem_present : String → Bool)
    (hdem : ∀ n, dem_present n = true) :
    (cutout_configs min_x max_x min_y max_y inset_pct eo).length = 8 ∧
    (cutout_configs min_x max_x min_y max_y inset_pct eo).map (fun c => c.name) =
      ["South_W", "South_E", "North_W", "North_E",
       "West_S", "West_N", "East_S", "East_N"] ∧
    cutout_loop_trace (cutout_configs min_x max_x min_y max_y inset_pct eo) dem_present =
      [CutEvent.create "South_W", CutEvent.subtractAttempt "South_W", CutEvent.discard "South_W",
       CutEvent.create "South_E", CutEvent.subtractAttempt "South_E", CutEvent.discard "South_E",
       CutEvent.create "North_W", CutEvent.subtractAttempt "North_W", CutEvent.discard "North_W",
       CutEvent.create "North_E", CutEvent.subtractAttempt "North_E", CutEvent.discard "North_E",
       CutEvent.create "West_S", CutEvent.subtractAttempt "West_S", CutEvent.discard "West_S",
       CutEvent.create "West_N", CutEvent.subtractAttempt "West_N", CutEvent.discard "West_N",
       CutEvent.create "East_S", CutEvent.subtractAttempt "East_S", CutEvent.discard "East_S",
       CutEvent.create "East_N", CutEvent.subtractAttempt "East_N", CutEvent.discard "East_N"] ∧
    subtract_count
      (cutout_loop_trace (cutout_configs min_x max_x min_y max_y inset_pct eo) dem_present) = 8 := by
  have ht : cutout_loop_trace (cutout_configs min_x max_x min_y max_y inset_pct eo) dem_present =
      [CutEvent.create "South_W", CutEvent.subtractAttempt "South_W", CutEvent.discard "South_W",
       CutEvent.create "South_E", CutEvent.subtractAttempt "South_E", CutEvent.discard "South_E",
       CutEvent.create "North_W", CutEvent.subtractAttempt "North_W", CutEvent.discard "North_W",
       CutEvent.create "North_E", CutEvent.subtractAttempt "North_E", CutEvent.discard "North_E",
       CutEvent.create "West_S", CutEvent.subtractAttempt "West_S", CutEvent.discard "West_S",
       CutEvent.create "West_N", CutEvent.subtractAttempt "West_N", CutEvent.discard "West_N",
       CutEvent.create "East_S", CutEvent.subtractAttempt "East_S", CutEvent.discard "East_S",
       CutEvent.create "East_N", CutEvent.subtractAttempt "East_N", CutEvent.discard "East_N"] := by
    simp [cutout_loop_trace, cutout_configs, hdem]
  refine ⟨rfl, rfl, ht, ?_⟩
  rw [ht]
  decide

/-- Witness for the cutout-sequence theorem with every DEM lookup present. -/
theorem add_alignment_cutouts_sequential_witness :
    (∀ n : String, (fun _ : String => true) n = true) ∧
    subtract_count
      (cutout_loop_trace (cutout_configs 0 1 0 1 (1 / 4) 0) (fun _ => true)) = 8 :=
  ⟨fun _ => rfl,
   (add_alignment_cutouts_sequential 0 1 0 1 (1 / 4) 0 (fun _ => true) (fun _ => rfl)).2.2.2⟩

/-- C10: the four mounting-hole cylinders (16 segments each plus two cap
centers) are merged into one combined cutter mesh and removed by a single
boolean subtraction, so mounting holes produce exactly one subtraction
attempt per run, not four. -/
theorem add_mounting_holes_single_subtraction
    (cosf sinf : Nat → ℚ) (min_x max_x min_y max_y inset_x inset_y radius z_bottom z_top : ℚ) :
    (hole_positions min_x max_x min_y max_y inset_x inset_y).length = 4 ∧
    (∀ cx cy : ℚ, (cylinder_verts cosf sinf cx cy radius z_bottom z_top).length =
      2 * segments + 2) ∧
    (∀ v : Nat, (cylinder_faces v).length = 3 * segments) ∧
    (all_mounting_verts cosf sinf (hole_positions min_x max_x min_y max_y inset_x inset_y)
      radius z_bottom z_top).length = 4 * (2 * segments + 2) ∧
    (all_mounting_faces 4).length = 4 * (3 * segments) ∧
    mounting_holes_trace true =
      [CutEvent.create "Mounting_Holes_Combined",
       CutEvent.subtractAttempt "Mounting_Holes_Combined",
       CutEvent.discard "Mounting_Holes_Combined"] ∧
    subtract_count (mounting_holes_trace true) = 1 := by
  refine ⟨rfl, ?_, ?_, ?_, ?_, by decide, by decide⟩
  · intro cx cy
    simp [cylinder_verts, segments]
  · intro v
    simp [cylinder_faces, segments]
  · simp [all_mounting_verts, hole_positions, cylinder_verts, segments]
  · have h48 : ∀ k : Nat, (cylinder_faces k).length = 48 := fun k => by
      simp [cylinder_faces, segments]
    simp [all_mounting_faces, List.length_flatten, List.map_map, Function.comp_def, h48, segments]

/-- C8: when the CityJSON alignment obtains zero ray hits against the
terrain, the alignment step is skipped (the diagnostic branch) and no vertex
Z value is modified: the unaligned mesh is retained. -/
theorem cityjson_skip_alignment_on_no_hits (ray_hit : ℚ → ℚ → Option ℚ) (verts : List BVert)
    (h : ∀ v ∈ ground_floor_verts verts, ray_hit v.x v.y = none) :
    z_differences ray_hit verts = [] ∧ align_buildings ray_hit verts = verts := by
  have hz : z_differences ray_hit verts = [] := by
    unfold z_differences
    exact List.filterMap_eq_nil_iff.mpr (fun v hv => by rw [h v hv]; rfl)
  exact ⟨hz, by simp [align_buildings, hz]⟩

/-- Witness for the zero-ray-hits theorem: a one-vertex mesh under a ray
cast that always misses is returned unmodified. -/
theorem cityjson_skip_alignment_on_no_hits_witness :
    (∀ v ∈ ground_floor_verts [(⟨0, 0, 0⟩ : BVert)],
      (fun _ _ => (none : Option ℚ)) v.x v.y = none) ∧
    align_buildings (fun _ _ => (none : Option ℚ)) [(⟨0, 0, 0⟩ : BVert)] =
      [(⟨0, 0, 0⟩ : BVert)] :=
  ⟨fun _ _ => rfl,
   (cityjson_skip_alignment_on_no_hits (fun _ _ => none) [⟨0, 0, 0⟩] (fun _ _ => rfl)).2⟩

/-- C3 counterexample: the aligner does not sample the lowest-Z decile; it
samples the lowest max(10, n // 10) vertices.  On the 10-vertex mesh
demo_verts under demo_ray, a decile sampler (1 sample, difference 0) would
skip the shift, while the code (10 samples, upper-median difference 100)
shifts every vertex, so the two disagree. -/
theorem cityjson_decile_claim_false :
    ground_floor_verts demo_verts ≠ spec_decile_ground_floor demo_verts ∧
    align_buildings demo_ray demo_verts ≠ spec_align_buildings demo_ray demo_verts := by
  have hgf : ground_floor_verts demo_verts = demo_verts := by
    norm_num [ground_floor_verts, sorted_by_z, sample_count, demo_verts,
      List.insertionSort, List.orderedInsert]
  have hsgf : spec_decile_ground_floor demo_verts = [⟨0, 0, 0⟩] := by
    norm_num [spec_decile_ground_floor, sorted_by_z, demo_verts,
      List.insertionSort, List.orderedInsert]
  have hdiff : z_differences demo_ray demo_verts =
      [0, 100, 100, 100, 100, 100, 100, 100, 100, 100] := by
    unfold z_differences
    rw [hgf]
    norm_num [demo_verts, demo_ray, List.filterMap_cons, List.filterMap_nil]
  have hne : z_differences demo_ray demo_verts ≠ [] := by
    rw [hdiff]
    simp
  have hadj : z_adjustment (z_differences demo_ray demo_verts) = 100 := by
    rw [hdiff]
    norm_num [z_adjustment, List.insertionSort, List.orderedInsert]
  have hcode : align_buildings demo_ray demo_verts =
      demo_verts.map (fun v => ⟨v.x, v.y, v.z + 100⟩) := by
    have h2 : align_buildings demo_ray demo_verts =
        if 1 / 2 < |z_adjustment (z_differences demo_ray demo_verts)| then
          demo_verts.map
            (fun v => ⟨v.x, v.y, v.z + z_adjustment (z_differences demo_ray demo_verts)⟩)
        else demo_verts := by
      simp [align_buildings, hne]
    rw [h2, hadj, abs_of_pos (by norm_num : (0 : ℚ) < 100),
      if_pos (by norm_num : (1 : ℚ) / 2 < 100)]
  have hspec : spec_align_buildings demo_ray demo_verts = demo_verts := by
    norm_num [spec_align_buildings, hsgf, demo_ray, z_adjustment,
      List.insertionSort, List.orderedInsert, abs_zero]
  refine ⟨by rw [hgf, hsgf]; simp [demo_verts], ?_⟩
  rw [hcode, hspec]
  norm_num [demo_verts]

/-- C3 amended: the aligner samples the lowest-Z max(10, n // 10) vertices
(the decile, but never fewer than 10; the whole mesh when it has fewer than
10), computes terrainZ - buildingZ for each sample whose downward ray hits,
takes the element at index k // 2 of the k sorted differences (the upper
median) as the global offset, and adds it to every vertex Z exactly when its
magnitude exceeds the 0.5 deadband; when every sampled difference equals 12
the offset is 12 and every vertex shifts by +12. -/
theorem cityjson_alignment_amended (ray_hit : ℚ → ℚ → Option ℚ) (verts : List BVert) :
    ground_floor_verts verts = (sorted_by_z verts).take (max 10 (verts.length / 10)) ∧
    (z_differences ray_hit verts ≠ [] →
      align_buildings ray_hit verts =
        if 1 / 2 < |z_adjustment (z_differences ray_hit verts)| then
          verts.map (fun v => ⟨v.x, v.y, v.z + z_adjustment (z_differences ray_hit verts)⟩)
        else verts) ∧
    (z_differences ray_hit verts ≠ [] →
      (∀ d ∈ z_differences ray_hit verts, d = 12) →
      align_buildings ray_hit verts = verts.map (fun v => ⟨v.x, v.y, v.z + 12⟩)) := by
  refine ⟨rfl, ?_, ?_⟩
  · intro h
    simp [align_buildings, h]
  · intro h h12
    have hpos : 0 < (z_differences ray_hit verts).length := List.length_pos.mpr h
    have hperm := List.perm_insertionSort (fun a b : ℚ => a ≤ b) (z_differences ray_hit verts)
    have hlen : (z_differences ray_hit verts).length / 2 <
        (List.insertionSort (fun a b : ℚ => a ≤ b) (z_differences ray_hit verts)).length := by
      rw [hperm.length_eq]
      exact Nat.div_lt_self hpos (by norm_num)
    have hadj : z_adjustment (z_differences ray_hit verts) = 12 := by
      unfold z_adjustment
      rw [List.getD_eq_getElem _ _ hlen]
      exact h12 _ (hperm.subset (List.getElem_mem hlen))
    have h2 : align_buildings ray_hit verts =
        if 1 / 2 < |z_adjustment (z_differences ray_hit verts)| then
          verts.map (fun v => ⟨v.x, v.y, v.z + z_adjustment (z_differences ray_hit verts)⟩)
        else verts := by
      simp [align_buildings, h]
    rw [h2, hadj, abs_of_pos (by norm_num : (0 : ℚ) < 12),
      if_pos (by norm_num : (1 : ℚ) / 2 < 12)]

/-- Witness for the amended alignment theorem: a one-vertex mesh whose ray
hit is 12 above it is shifted to z = 12. -/
theorem cityjson_alignment_amended_witness :
    z_differences (fun _ _ => some 12) [(⟨0, 0, 0⟩ : BVert)] ≠ [] ∧
    (∀ d ∈ z_differences (fun _ _ => some 12) [(⟨0, 0, 0⟩ : BVert)], d = 12) ∧
    align_buildings (fun _ _ => some 12) [(⟨0, 0, 0⟩ : BVert)] = [(⟨0, 0, 12⟩ : BVert)] := by
  have h1 : z_differences (fun _ _ => some 12) [(⟨0, 0, 0⟩ : BVert)] = [12] := by
    norm_num [z_differences, ground_floor_verts, sorted_by_z, sample_count,
      List.insertionSort, List.orderedInsert, List.filterMap_cons, List.filterMap_nil]
  refine ⟨by simp [h1], by simp [h1], ?_⟩
  have happ := (cityjson_alignment_amended (fun _ _ => some 12) [(⟨0, 0, 0⟩ : BVert)]).2.2
    (by simp [h1]) (by simp [h1])
  simpa using happ

/-- C4: the flat-bottom cut builds one box cutter whose top face lies
exactly at the target cut elevation, whose XY size is at least 3 times each
planar extent of the model, and whose Z size is at least 10 times the model
height and at least the fixed minimum 50000; subtracting it removes exactly
the geometry below the cut elevation; and for a flat 100 x 100 x 1 terrain
with base thickness 10 (the closed box [0,100] x [0,100] x [-10,1]) cut at
elevation 0, the resulting solid's Z values span exactly [0, 1]. -/
theorem cut_flat_bottom_spec :
    (∀ (b : BBox) (cut : ℚ), cutter_z b cut + cutter_z_size b / 2 = cut) ∧
    (∀ b : BBox, 3 * (b.max_x - b.min_x) ≤ cutter_xy_size b ∧
      3 * (b.max_y - b.min_y) ≤ cutter_xy_size b) ∧
    (∀ b : BBox, 10 * model_height b ≤ cutter_z_size b ∧ (50000 : ℚ) ≤ cutter_z_size b) ∧
    (∀ (T : Set Point3) (b : BBox) (cut : ℚ),
      (∀ p ∈ T, in_bbox b p) → 0 < model_width b → b.min_z ≤ cut → cut ≤ b.max_z →
      csg_difference T (bottom_cutter b cut) = {p ∈ T | cut ≤ p.2.2}) ∧
    ((∀ p ∈ csg_difference (box_closed ⟨50, 50, -(9 / 2), 100, 100, 11⟩)
        (bottom_cutter ⟨0, 100, 0, 100, -10, 1⟩ 0), 0 ≤ p.2.2 ∧ p.2.2 ≤ 1) ∧
     ((50, 50, 0) : Point3) ∈ csg_difference (box_closed ⟨50, 50, -(9 / 2), 100, 100, 11⟩)
        (bottom_cutter ⟨0, 100, 0, 100, -10, 1⟩ 0) ∧
     ((50, 50, 1) : Point3) ∈ csg_difference (box_closed ⟨50, 50, -(9 / 2), 100, 100, 11⟩)
        (bottom_cutter ⟨0, 100, 0, 100, -10, 1⟩ 0)) := by
  have main : ∀ (T : Set Point3) (b : BBox) (cut : ℚ),
      (∀ p ∈ T, in_bbox b p) → 0 < model_width b → b.min_z ≤ cut → cut ≤ b.max_z →
      csg_difference T (bottom_cutter b cut) = {p ∈ T | cut ≤ p.2.2} := by
    intro T b cut hT hw hc1 hc2
    have hmh : model_height b = b.max_z - b.min_z := rfl
    have hwx : b.max_x - b.min_x ≤ model_width b := le_max_left _ _
    have hwy : b.max_y - b.min_y ≤ model_width b := le_max_right _ _
    have hM1 : model_height b * 10 ≤ cutter_z_size b := le_max_left _ _
    have hM2 : (50000 : ℚ) ≤ cutter_z_size b := le_max_right _ _
    ext p
    simp only [csg_difference, Set.mem_diff, Set.mem_sep_iff, box_open, bottom_cutter,
      Set.mem_setOf_eq, cutter_z, cutter_xy_size]
    constructor
    · rintro ⟨hpT, hnot⟩
      refine ⟨hpT, ?_⟩
      by_contra hlt
      push_neg at hlt
      obtain ⟨hx1, hx2, hy1, hy2, hz1, hz2⟩ := hT p hpT
      refine hnot ⟨?_, ?_, ?_⟩
      · rw [abs_lt]
        constructor <;> linarith
      · rw [abs_lt]
        constructor <;> linarith
      · rw [abs_lt]
        rcases le_or_lt (model_height b) 5000 with hcase | hcase
        · constructor <;> linarith
        · constructor <;> linarith
    · rintro ⟨hpT, hge⟩
      refine ⟨hpT, fun hopen => ?_⟩
      obtain ⟨_, _, hzabs⟩ := hopen
      rw [abs_lt] at hzabs
      linarith [hzabs.2]
  have hTbox : ∀ p ∈ box_closed ⟨50, 50, -(9 / 2), 100, 100, 11⟩,
      in_bbox ⟨0, 100, 0, 100, -10, 1⟩ p := by
    intro p hp
    simp only [box_closed, Set.mem_setOf_eq] at hp
    obtain ⟨h1, h2, h3⟩ := hp
    rw [abs_le] at h1 h2 h3
    norm_num at h1 h2 h3
    simp only [in_bbox]
    and_intros <;> linarith [h1.1, h1.2, h2.1, h2.2, h3.1, h3.2]
  have hres := main (box_closed ⟨50, 50, -(9 / 2), 100, 100, 11⟩)
    ⟨0, 100, 0, 100, -10, 1⟩ 0 hTbox (by norm_num [model_width]) (by norm_num) (by norm_num)
  refine ⟨fun b cut => by unfold cutter_z; ring, ?_, ?_, main, ?_, ?_, ?_⟩
  · intro b
    unfold cutter_xy_size model_width
    constructor
    · linarith [le_max_left (b.max_x - b.min_x) (b.max_y - b.min_y)]
    · linarith [le_max_right (b.max_x - b.min_x) (b.max_y - b.min_y)]
  · intro b
    unfold cutter_z_size
    constructor
    · linarith [le_max_left (model_height b * 10) (50000 : ℚ)]
    · exact le_max_right _ _
  · intro p hp
    rw [hres] at hp
    obtain ⟨hpbox, hz0⟩ := hp
    simp only [box_closed, Set.mem_setOf_eq] at hpbox
    have h3 := abs_le.mp hpbox.2.2
    norm_num at h3
    exact ⟨hz0, by linarith [h3.2]⟩
  · rw [hres]
    refine ⟨?_, by norm_num⟩
    simp only [box_closed, Set.mem_setOf_eq]
    norm_num [abs_le]
  · rw [hres]
    refine ⟨?_, by norm_num⟩
    simp only [box_closed, Set.mem_setOf_eq]
    norm_num [abs_le]

/-- Witness for the flat-bottom theorem: the unit-radius box terrain
[-1,1]^3 with its own bounding box, cut at elevation 0. -/
theorem cut_flat_bottom_spec_witness :
    (∀ p ∈ box_closed ⟨0, 0, 0, 2, 2, 2⟩, in_bbox ⟨-1, 1, -1, 1, -1, 1⟩ p) ∧
    0 < model_width ⟨-1, 1, -1, 1, -1, 1⟩ ∧
    (⟨-1, 1, -1, 1, -1, 1⟩ : BBox).min_z ≤ 0 ∧ (0 : ℚ) ≤ (⟨-1, 1, -1, 1, -1, 1⟩ : BBox).max_z ∧
    csg_difference (box_closed ⟨0, 0, 0, 2, 2, 2⟩) (bottom_cutter ⟨-1, 1, -1, 1, -1, 1⟩ 0) =
      {p ∈ box_closed ⟨0, 0, 0, 2, 2, 2⟩ | 0 ≤ p.2.2} := by
  have hT : ∀ p ∈ box_closed ⟨0, 0, 0, 2, 2, 2⟩, in_bbox ⟨-1, 1, -1, 1, -1, 1⟩ p := by
    intro p hp
    simp only [box_closed, Set.mem_setOf_eq] at hp
    obtain ⟨h1, h2, h3⟩ := hp
    rw [abs_le] at h1 h2 h3
    norm_num at h1 h2 h3
    simp only [in_bbox]
    and_intros <;> linarith [h1.1, h1.2, h2.1, h2.2, h3.1, h3.2]
  exact ⟨hT, by norm_num [model_width], by norm_num, by norm_num,
    cut_flat_bottom_spec.2.2.2.1 (box_closed ⟨0, 0, 0, 2, 2, 2⟩) ⟨-1, 1, -1, 1, -1, 1⟩ 0
      hT (by norm_num [model_width]) (by norm_num) (by norm_num)⟩

/-- C7: for every alignment-notch cutter, the triangle apex points outward
from its tile edge (it lies strictly outward of the base for positive
size), its outward signed distance from the edge is 2 * half_size * (1 - e)
for edge-inset fraction e, so at e = 1 (100%) the apex lies exactly on the
edge, at e = 0 (0%) the apex lies 2 * half_size outside while both base
corners lie exactly on the edge (the whole triangle outside the tile), and
the distance interpolates linearly between these endpoints. -/
theorem add_alignment_cutouts_apex_geometry
    (min_x max_x min_y max_y inset_pct half_size e : ℚ) (hhs : 0 < half_size) :
    ∀ cf ∈ List.zip
        (cutout_configs min_x max_x min_y max_y inset_pct (edge_offset half_size e))
        (cutout_frames min_x max_x min_y max_y),
      out_dist cf.2 (world_pt cf.1 (0, half_size)) = 2 * half_size * (1 - e) ∧
      out_dist cf.2 (world_pt cf.1 (-half_size, -half_size)) = -(2 * half_size * e) ∧
      out_dist cf.2 (world_pt cf.1 (half_size, -half_size)) = -(2 * half_size * e) ∧
      (e = 1 → out_dist cf.2 (world_pt cf.1 (0, half_size)) = 0) ∧
      (e = 0 → out_dist cf.2 (world_pt cf.1 (0, half_size)) = 2 * half_size ∧
        out_dist cf.2 (world_pt cf.1 (-half_size, -half_size)) = 0 ∧
        out_dist cf.2 (world_pt cf.1 (half_size, -half_size)) = 0) ∧
      out_dist cf.2 (world_pt cf.1 (0, half_size)) = (1 - e) * (2 * half_size) + e * 0 ∧
      0 < out_dist cf.2 (world_pt cf.1 (0, half_size)) -
          out_dist cf.2 (world_pt cf.1 (-half_size, -half_size)) := by
  intro cf hcf
  simp only [cutout_configs, cutout_frames, edge_offset, List.zip_cons_cons,
    List.zip_nil_right, List.mem_cons, List.not_mem_nil, or_false] at hcf
  rcases hcf with h | h | h | h | h | h | h | h <;>
    subst h <;>
    simp only [world_pt, out_dist] <;>
    refine ⟨by ring, by ring, by ring, fun h1 => by subst h1; ring,
      fun h0 => by subst h0; exact ⟨by ring, by ring, by ring⟩, by ring, ?_⟩ <;>
    · ring_nf
      linarith

/-- Witness for the apex-geometry theorem at the unit tile with edge inset
0% and half size 1, on the first (south-west) cutter. -/
theorem add_alignment_cutouts_apex_geometry_witness :
    (0 : ℚ) < 1 ∧
    out_dist ⟨0, -1, 0, 0⟩ (world_pt ⟨0, -1, -1, 0, "South_W"⟩ (0, 1)) =
      2 * 1 * (1 - 0) :=
  ⟨by norm_num,
   (add_alignment_cutouts_apex_geometry 0 1 0 1 0 1 0 (by norm_num)
     (⟨0, -1, -1, 0, "South_W"⟩, ⟨0, -1, 0, 0⟩)
     (by norm_num [cutout_configs, cutout_frames, edge_offset])).1⟩

end DemPipeline
